import Mathlib

/-!
Shallow embedding of `httptrace/server.go` (package `httptrace` of the
appdash/apptrace HTTP tracing middleware).

The file under `src/` contains: the `responseInfoRecorder` response-writer
wrapper, `responseInfo` / `ServerEvent` / `NewServerEvent`, the
`MiddlewareConfig` structure and the `Middleware` function.  The span codec
(`GetSpanIDHeader` / `SetSpanIDHeader`), the `requestInfo` / `redactHeaders`
helpers and the external `apptrace` collector/recorder are not in `src/`;
they are modelled from the spec (each such definition carries a
`Modelled from the spec:` doc comment).

Conventions of the embedding:
  * Go byte slices are `List Nat`, Go `string` is `String`.
  * Go `int64` is `Int` kept in the two's-complement range by an explicit
    wrap (`wrap64`) at every arithmetic step where the source can
    overflow (`ContentLength += int64(len(b))`).
  * An `http.Header` map is an association list `Headers`.
  * Go errors are `Option String` (`none` = nil error).
  * `time.Now()` readings come from an explicit clock `clock : Nat → Nat`
    sampled at successive ticks, making the order of the two `time.Now()`
    calls in `Middleware` explicit.
  * The underlying `http.ResponseWriter` is abstract: a state type `σ`
    together with an operation record `RWOps σ`.  For whole-middleware
    claims it is instantiated with the concrete `UWriter`, which also keeps
    the wire log of what has been committed to the client (headers are
    committed at the first body write, as in `net/http`; header-map
    mutations after that point never reach the client).
  * A Go panic is an `Except.error` carrying the state at panic time.
-/

deriving instance DecidableEq for Except

namespace Httptrace

/-- An HTTP header map, as an association list of name/value pairs. -/
def Headers := List (String × String)

instance : DecidableEq Headers := by unfold Headers; infer_instance

instance : Append Headers := ⟨fun a b => List.append a b⟩

/-- Look a header up by exact name (first match). -/
def getHeaderVal (h : Headers) (k : String) : Option String :=
  (List.find? (fun p => p.1 = k) h).map Prod.snd

/-- Set a header, replacing any existing entries with that name
(the behaviour of Go `http.Header.Set`). -/
def setHeaderVal (h : Headers) (k v : String) : Headers :=
  List.filter (fun p => ¬ p.1 = k) h ++ [(k, v)]

/-- Modelled from the spec: `SpanID` is an opaque trace-correlation
identifier, "treated as a value type with equality, not interpreted"
(the concrete `apptrace.SpanID` is external to `src/`). -/
structure SpanID where
  val : Nat
deriving DecidableEq, Repr

/-- Modelled from the spec: `newRoot()` generates a fresh root span.
Randomness is made explicit: the middleware receives the fresh value
through a `seed` argument. -/
def NewRootSpanID (seed : Nat) : SpanID := ⟨seed⟩

/-- The designated trace header name. -/
def spanIDKey : String := "Span-ID"

/-- Modelled from the spec: `encode(spanID) → headerValue` is a total
injective rendering of a `SpanID` as a header string.  The concrete
wire format of `apptrace` is not in `src/`; any injective encoding with
`decode ∘ encode = some` satisfies the spec contract, so a unary one is
used. -/
def encodeSpanID (s : SpanID) : String :=
  String.mk (List.replicate s.val 'a')

/-- Modelled from the spec: `decode(headerValue) → SpanID | absent`;
fails (returns `none`) on a malformed value. -/
def decodeSpanID (v : String) : Option SpanID :=
  if v.data.all (fun c => c = 'a') then some ⟨v.data.length⟩ else none

/-- Modelled from the spec: `GetSpanIDHeader` reads the designated header;
absent ⇒ `Except.ok none`; present and well-formed ⇒ `Except.ok (some s)`;
present but malformed ⇒ `Except.error` (non-fatal "invalid header"
condition). -/
def GetSpanIDHeader (h : Headers) : Except String (Option SpanID) :=
  match getHeaderVal h spanIDKey with
  | none => .ok none
  | some v =>
    match decodeSpanID v with
    | some s => .ok (some s)
    | none => .error ("invalid Span-ID header: " ++ v)

/-- Modelled from the spec: `SetSpanIDHeader` writes the encoded span onto
the designated header of the given header map. -/
def SetSpanIDHeader (h : Headers) (s : SpanID) : Headers :=
  setHeaderVal h spanIDKey (encodeSpanID s)

/-- Modelled from the spec: header redaction merges standard and trailer
headers into one mapping and masks sensitive values (authorization /
cookie, case-insensitively) with a fixed marker. -/
def redactHeaders (h trailer : Headers) : Headers :=
  (h ++ trailer).map fun p =>
    if p.1.toLower = "authorization" ∨ p.1.toLower = "cookie" then
      (p.1, "REDACTED")
    else p

/-- An HTTP request: method, URI and header map.  Downstream handlers may
mutate the request in place in Go; here a handler returns the updated
request value. -/
structure Request where
  method : String
  uri : String
  header : Headers
deriving DecidableEq

/-- Modelled from the spec: `RequestInfo` captures method, URI and the
redacted header mapping of a request. -/
structure RequestInfo where
  Method : String
  URI : String
  Headers : Headers
deriving DecidableEq

/-- Modelled from the spec: `requestInfo` builds a `RequestInfo` snapshot
of a request (its helper body is not in `src/`). -/
def requestInfo (r : Request) : RequestInfo :=
  { Method := r.method, URI := r.uri, Headers := redactHeaders r.header [] }

/-- `http.Response`, restricted to the fields `partialResponse` and
`responseInfo` touch (`Trailer` is nil for a partial response). -/
structure Response where
  Header : Headers
  Trailer : Headers := []
  ContentLength : Int
  StatusCode : Nat
deriving DecidableEq

/-- `ResponseInfo` describes an HTTP response (from `src`). -/
structure ResponseInfo where
  Headers : Headers
  ContentLength : Int
  StatusCode : Nat
deriving DecidableEq

/-- `responseInfo` (from `src`): redacts headers and trailers, copies
length and status. -/
def responseInfo (r : Response) : ResponseInfo :=
  { Headers := redactHeaders r.Header r.Trailer
    ContentLength := r.ContentLength
    StatusCode := r.StatusCode }

/-- `ServerEvent` (from `src`): records an HTTP server request handling
event.  Times are clock readings (`Nat`). -/
structure ServerEvent where
  Request : RequestInfo
  Response : ResponseInfo := { Headers := [], ContentLength := 0, StatusCode := 0 }
  Route : String := ""
  User : String := ""
  ServerRecv : Nat := 0
  ServerSend : Nat := 0
deriving DecidableEq

/-- `Schema` returns the constant "HTTPServer" (from `src`). -/
def ServerEvent.Schema (_ : ServerEvent) : String := "HTTPServer"

/-- `NewServerEvent` (from `src`): an event with only `Request`
populated. -/
def NewServerEvent (r : Request) : ServerEvent :=
  { Request := requestInfo r }

/-- The operations of an underlying `http.ResponseWriter`, over an
abstract writer state `σ`.  `Write` returns the new state together with
the Go `(n, error)` pair. -/
structure RWOps (σ : Type) where
  Header : σ → Headers
  Write : σ → List Nat → σ × Nat × Option String
  WriteHeader : σ → Nat → σ

/-- `responseInfoRecorder` (from `src`): records status code and body
length, forwarding all operations to the underlying `ResponseWriter`.
`ContentLength` is a Go `int64`: an `Int` that every accumulation step
keeps in `[-2^63, 2^63)` via `wrap64`. -/
structure responseInfoRecorder (σ : Type) where
  statusCode : Nat
  ContentLength : Int
  ResponseWriter : σ
deriving DecidableEq

/-- Two's-complement wrap-around of Go `int64` arithmetic: the result of
an `int64` operation, reduced to the range `[-2^63, 2^63)`. -/
def wrap64 (x : Int) : Int :=
  (x + 2 ^ 63) % 2 ^ 64 - 2 ^ 63

/-- `responseInfoRecorder.Write` (from `src`): accumulate the length
with Go `int64` addition (which wraps on overflow), lazily record the
implicit 200, then forward and return the underlying writer's result. -/
def responseInfoRecorder.Write (W : RWOps σ) (r : responseInfoRecorder σ)
    (b : List Nat) : responseInfoRecorder σ × Nat × Option String :=
  let r : responseInfoRecorder σ :=
    { r with ContentLength := wrap64 (r.ContentLength + b.length) }
  let r : responseInfoRecorder σ :=
    if r.statusCode = 0 then { r with statusCode := 200 } else r
  let res := W.Write r.ResponseWriter b
  ({ r with ResponseWriter := res.1 }, res.2)

/-- `responseInfoRecorder.StatusCode` (from `src`): the explicit status,
or 200 when none was recorded. -/
def responseInfoRecorder.StatusCode (r : responseInfoRecorder σ) : Nat :=
  if r.statusCode = 0 then 200 else r.statusCode

/-- `responseInfoRecorder.WriteHeader` (from `src`): set the code and
forward. -/
def responseInfoRecorder.WriteHeader (W : RWOps σ) (r : responseInfoRecorder σ)
    (code : Nat) : responseInfoRecorder σ :=
  { r with statusCode := code, ResponseWriter := W.WriteHeader r.ResponseWriter code }

/-- `responseInfoRecorder.partialResponse` (from `src`): a partial
`http.Response` from what the recorder knows; headers are read from the
underlying writer at call time. -/
def responseInfoRecorder.partialResponse (W : RWOps σ)
    (r : responseInfoRecorder σ) : Response :=
  { StatusCode := r.StatusCode
    ContentLength := r.ContentLength
    Header := W.Header r.ResponseWriter }

/-- A sequence of `Write` calls, threading the recorder state. -/
def writeAll (W : RWOps σ) (r : responseInfoRecorder σ) :
    List (List Nat) → responseInfoRecorder σ
  | [] => r
  | b :: bs => writeAll W (r.Write W b).1 bs

/-- One snapshot in state-passing form: `responseInfo` of
`partialResponse`, as taken by `Middleware` after the handler returns.
The source methods only read the recorder, so the state is returned
unchanged. -/
def infoSnap (W : RWOps σ) (r : responseInfoRecorder σ) :
    ResponseInfo × responseInfoRecorder σ :=
  (responseInfo (r.partialResponse W), r)

/-- `n` successive snapshot calls, collecting the returned values. -/
def snapshotN (W : RWOps σ) (r : responseInfoRecorder σ) :
    Nat → List ResponseInfo × responseInfoRecorder σ
  | 0 => ([], r)
  | n + 1 =>
    let v := infoSnap W r
    let rest := snapshotN W v.2 n
    (v.1 :: rest.1, rest.2)

/-- What can be observed on the client side of the connection: a commit
of the headers as they stood when the response line was flushed, or a
chunk of body bytes. -/
inductive WireItem where
  | headerFlush (h : Headers)
  | chunk (b : List Nat)
deriving DecidableEq

/-- Concrete underlying `http.ResponseWriter` model: a header map plus
the wire log of what has been committed to the client.  As in `net/http`,
the first `Write` or `WriteHeader` commits the current header map; later
mutations of the header map are never seen by the client. -/
structure UWriter where
  header : Headers := []
  wroteHeader : Bool := false
  wire : List WireItem := []
deriving DecidableEq

/-- Commit the headers if they have not been committed yet. -/
def UWriter.commitHeader (s : UWriter) : UWriter :=
  if s.wroteHeader then s
  else { s with wroteHeader := true, wire := s.wire ++ [.headerFlush s.header] }

def UWriter.write (s : UWriter) (b : List Nat) : UWriter × Nat × Option String :=
  let s := s.commitHeader
  ({ s with wire := s.wire ++ [.chunk b] }, b.length, none)

def UWriter.writeHeader (s : UWriter) (_code : Nat) : UWriter :=
  s.commitHeader

/-- Mutate the header map (the effect of writing through the map returned
by `Header()`). -/
def UWriter.setHeader (s : UWriter) (h : Headers) : UWriter :=
  { s with header := h }

/-- The `RWOps` of the concrete writer. -/
def uwOps : RWOps UWriter :=
  { Header := UWriter.header
    Write := UWriter.write
    WriteHeader := UWriter.writeHeader }

/-- `MiddlewareConfig` (from `src`): three optional callbacks.
`SetContextSpan` mutates request state through the request pointer, so
it is modelled as returning the updated request. -/
structure MiddlewareConfig where
  RouteName : Option (Request → String) := none
  CurrentUser : Option (Request → String) := none
  SetContextSpan : Option (Request → SpanID → Request) := none

/-- `if conf.SetContextSpan != nil { conf.SetContextSpan(r, *spanID) }`. -/
def applyCtx (cf : MiddlewareConfig) (r : Request) (s : SpanID) : Request :=
  match cf.SetContextSpan with
  | some f => f r s
  | none => r

/-- `if conf.RouteName != nil { e.Route = conf.RouteName(r) }`, starting
from the zero value `""`. -/
def applyRoute (cf : MiddlewareConfig) (r : Request) : String :=
  match cf.RouteName with
  | some f => f r
  | none => ""

/-- `if conf.CurrentUser != nil { e.User = conf.CurrentUser(r) }`,
starting from the zero value `""`. -/
def applyUser (cf : MiddlewareConfig) (r : Request) : String :=
  match cf.CurrentUser with
  | some f => f r
  | none => ""

/-- A Go panic (nil-pointer dereference), carrying the observable state
at panic time. -/
structure GoPanic where
  handlerInvoked : Bool
  sink : UWriter
deriving DecidableEq

/-- The observable outcome of one `Middleware` invocation.  `emitted`
lists the `rec.Event` calls handed to the collector as
`(span, recorder name, event)` triples; `warnings` counts the
invalid-header warnings logged; `fromClient` is the
`setSpanIDFromClient` flag; `preHandlerReq` / `finalReq` are the request
as passed to and as returned by the downstream handler. -/
structure MiddlewareResult where
  warnings : Nat
  fromClient : Bool
  handlerInvoked : Bool
  preHandlerReq : Request
  finalReq : Request
  finalRec : responseInfoRecorder UWriter
  emitted : List (SpanID × String × ServerEvent)
deriving DecidableEq

/-- `spanID, err := GetSpanIDHeader(r.Header)`: the number of warnings
logged (`log.Printf` on a non-nil error). -/
def mwWarnings (h : Headers) : Nat :=
  match GetSpanIDHeader h with
  | .error _ => 1
  | .ok _ => 0

/-- `spanID, err := GetSpanIDHeader(r.Header)`: the resulting (possibly
nil) span pointer; nil both when the header is absent and when decoding
failed. -/
def mwSpanOpt (h : Headers) : Option SpanID :=
  match GetSpanIDHeader h with
  | .error _ => none
  | .ok o => o

/-- `setSpanIDFromClient := (spanID != nil)`. -/
def mwFromClient (h : Headers) : Bool :=
  (mwSpanOpt h).isSome

/-- `if spanID == nil { newSpanID := apptrace.NewRootSpanID(); spanID =
&newSpanID }`: the resolved span. -/
def mwSpan (h : Headers) (seed : Nat) : SpanID :=
  match mwSpanOpt h with
  | some s => s
  | none => NewRootSpanID seed

/-- The body of `Middleware` (from `src`) after the `conf` dereference
succeeded: publish the span, build the event, run the handler through
the recorder, echo the span header, finalize and emit. -/
def mwRun (cf : MiddlewareConfig)
    (next : Request → responseInfoRecorder UWriter →
      Request × responseInfoRecorder UWriter)
    (clock : Nat → Nat) (seed : Nat) (r : Request) (rw : UWriter) :
    MiddlewareResult :=
  let setSpanIDFromClient := mwFromClient r.header
  let spanID : SpanID := mwSpan r.header seed
  let r1 := applyCtx cf r spanID
  let e := NewServerEvent r1
  let e := { e with ServerRecv := clock 0 }
  let e := { e with Route := applyRoute cf r1 }
  let e := { e with User := applyUser cf r1 }
  let rr0 : responseInfoRecorder UWriter :=
    { statusCode := 0, ContentLength := 0, ResponseWriter := rw }
  let nres := next r1 rr0
  let r2 := nres.1
  let rr1 := nres.2
  let rr2 : responseInfoRecorder UWriter :=
    { rr1 with ResponseWriter :=
        (rr1.ResponseWriter.setHeader
          (SetSpanIDHeader (uwOps.Header rr1.ResponseWriter) spanID)) }
  let e := if setSpanIDFromClient then e
    else { e with Request := requestInfo r2 }
  let e := { e with Response := responseInfo (rr2.partialResponse uwOps) }
  let e := { e with ServerSend := clock 1 }
  let name := if e.Route ≠ "" then e.Route else e.Request.URI
  { warnings := mwWarnings r.header
    fromClient := setSpanIDFromClient
    handlerInvoked := true
    preHandlerReq := r1
    finalReq := r2
    finalRec := rr2
    emitted := [(spanID, name, e)] }

/-- `Middleware` (from `src`), for one request.  The collector is opaque:
emissions are returned in `MiddlewareResult.emitted`.  `next` is the
downstream handler as a state function on the request and the wrapped
response writer; `clock` supplies the `time.Now()` readings (tick 0 then
tick 1); `seed` is the entropy consumed by `apptrace.NewRootSpanID`;
`rw` is the real response writer being wrapped.  A nil `conf` panics at
the first `conf.SetContextSpan` field access, before the downstream
handler can run. -/
def Middleware (conf : Option MiddlewareConfig)
    (next : Request → responseInfoRecorder UWriter →
      Request × responseInfoRecorder UWriter)
    (clock : Nat → Nat) (seed : Nat) (r : Request) (rw : UWriter) :
    Except GoPanic MiddlewareResult :=
  match conf with
  | none => .error { handlerInvoked := false, sink := rw }
  | some cf => .ok (mwRun cf next clock seed r rw)

/-- The span id the client can recover from the final outbound header
map, when the run completed. -/
def outSpan (x : Except GoPanic MiddlewareResult) : Option SpanID :=
  match x with
  | .ok res => (getHeaderVal res.finalRec.ResponseWriter.header spanIDKey).bind decodeSpanID
  | .error _ => none

/-! ## Basic lemmas about the recorder -/

theorem write_fst (W : RWOps σ) (r : responseInfoRecorder σ) (b : List Nat) :
    (r.Write W b).1 =
      { statusCode := if r.statusCode = 0 then 200 else r.statusCode
        ContentLength := wrap64 (r.ContentLength + b.length)
        ResponseWriter := (W.Write r.ResponseWriter b).1 } := by
  unfold responseInfoRecorder.Write
  by_cases h : r.statusCode = 0 <;> simp [h]

theorem wrap64_eq_self (x : Int) (h0 : -(2 ^ 63) ≤ x) (h1 : x < 2 ^ 63) :
    wrap64 x = x := by
  unfold wrap64
  rw [Int.emod_eq_of_lt (by omega) (by omega)]
  omega

theorem write_snd (W : RWOps σ) (r : responseInfoRecorder σ) (b : List Nat) :
    (r.Write W b).2 = (W.Write r.ResponseWriter b).2 := by
  unfold responseInfoRecorder.Write
  by_cases h : r.statusCode = 0 <;> simp [h]

theorem lengths_sum_nonneg (bs : List (List Nat)) :
    0 ≤ (bs.map fun b => (b.length : Int)).sum := by
  apply List.sum_nonneg
  intro x hx
  rcases List.mem_map.mp hx with ⟨b, _, hb⟩
  rw [← hb]
  exact Int.ofNat_nonneg b.length

/-- As long as the running total stays below `2^63`, the `int64`
accumulation never wraps and `writeAll` adds the exact byte count. -/
theorem writeAll_contentLength (W : RWOps σ) (bs : List (List Nat)) :
    ∀ r : responseInfoRecorder σ, 0 ≤ r.ContentLength →
      r.ContentLength + (bs.map fun b => (b.length : Int)).sum < 2 ^ 63 →
      (writeAll W r bs).ContentLength
        = r.ContentLength + (bs.map fun b => (b.length : Int)).sum := by
  induction bs with
  | nil =>
    intro r _ _
    simp [writeAll]
  | cons b bs ih =>
    intro r h0 h1
    simp only [List.map_cons, List.sum_cons] at h1 ⊢
    have hlen : (0 : Int) ≤ (b.length : Int) := Int.ofNat_nonneg b.length
    have hrest : 0 ≤ (bs.map fun c => (c.length : Int)).sum := lengths_sum_nonneg bs
    have hw : ((r.Write W b).1).ContentLength = r.ContentLength + b.length := by
      rw [write_fst]
      exact wrap64_eq_self _ (by omega) (by omega)
    rw [writeAll, ih _ (by rw [hw]; omega) (by rw [hw]; omega), hw]
    ring

theorem writeAll_statusCode_ne (W : RWOps σ) (bs : List (List Nat)) :
    ∀ r : responseInfoRecorder σ, r.statusCode ≠ 0 →
      (writeAll W r bs).statusCode = r.statusCode := by
  induction bs with
  | nil => intro r _; rfl
  | cons b bs ih =>
    intro r hr
    rw [writeAll, ih _ (by rw [write_fst]; simp [hr]), write_fst]
    simp [hr]

theorem writeAll_statusCode_zero (W : RWOps σ) (bs : List (List Nat))
    (r : responseInfoRecorder σ) (hr : r.statusCode = 0) :
    (writeAll W r bs).StatusCode = 200 := by
  cases bs with
  | nil =>
    rw [writeAll, responseInfoRecorder.StatusCode, hr]
    simp
  | cons b bs =>
    have h1 : ((r.Write W b).1).statusCode = 200 := by
      rw [write_fst, hr]
      simp
    rw [writeAll, responseInfoRecorder.StatusCode,
      writeAll_statusCode_ne W bs _ (by rw [h1]; decide), h1]
    simp

/-! ## Claims C4, C5, C6: the Response Observer -/

/-- Claim C4 as stated is refuted by `int64` overflow: two writes of
`2^62` bytes each on a fresh recorder leave the Go `int64` counter at
`-2^63`, not at the total `N = 2^63`. -/
theorem claim_C4_counterexample :
    ¬ ((writeAll uwOps { statusCode := 0, ContentLength := 0, ResponseWriter := ({} : UWriter) }
          [List.replicate (2 ^ 62) 0, List.replicate (2 ^ 62) 0]).ContentLength
        = (([List.replicate (2 ^ 62) 0, List.replicate (2 ^ 62) 0].map
            fun c : List Nat => (c.length : Int)).sum)) := by
  rw [writeAll, writeAll, writeAll, write_fst, write_fst]
  norm_num [wrap64, List.length_replicate]

/-- Claim C4, amended for `int64` wrap-around: every `Write` adds the
byte count to `ContentLength` with `int64` (wrapping) addition
irrespective of the underlying writer, returns exactly the underlying
writer's `(n, error)` pair, and a write sequence totalling `N < 2^63`
bytes on a fresh recorder ends with `ContentLength = N`. -/
theorem claim_C4 (σ : Type) (W : RWOps σ) (r : responseInfoRecorder σ)
    (b : List Nat) (bs : List (List Nat)) (s : σ)
    (hN : (bs.map fun c => (c.length : Int)).sum < 2 ^ 63) :
    ((r.Write W b).1).ContentLength = wrap64 (r.ContentLength + b.length) ∧
    (r.Write W b).2 = (W.Write r.ResponseWriter b).2 ∧
    (writeAll W { statusCode := 0, ContentLength := 0, ResponseWriter := s } bs).ContentLength
      = (bs.map fun c => (c.length : Int)).sum := by
  refine ⟨?_, write_snd W r b, ?_⟩
  · rw [write_fst]
  · rw [writeAll_contentLength W bs _ (by simp) (by simpa using hN)]
    simp

/-- Witness for claim C4 at a concrete recorder: one write of one byte
wraps nothing, and a two-write sequence of 3 bytes total ends at 3. -/
theorem claim_C4_witness :
    (([[1], [2, 3]].map fun c : List Nat => (c.length : Int)).sum < 2 ^ 63) ∧
    (((responseInfoRecorder.Write uwOps
        { statusCode := 0, ContentLength := 0, ResponseWriter := {} } [7]).1).ContentLength
        = wrap64 (0 + ([7] : List Nat).length) ∧
      (responseInfoRecorder.Write uwOps
        { statusCode := 0, ContentLength := 0, ResponseWriter := {} } [7]).2
        = (uwOps.Write ({} : UWriter) [7]).2 ∧
      (writeAll uwOps { statusCode := 0, ContentLength := 0, ResponseWriter := ({} : UWriter) }
        [[1], [2, 3]]).ContentLength
        = (([[1], [2, 3]].map fun c : List Nat => (c.length : Int)).sum)) :=
  ⟨by decide, claim_C4 UWriter uwOps
    { statusCode := 0, ContentLength := 0, ResponseWriter := {} } [7] [[1], [2, 3]] {}
    (by decide)⟩

/-- Claim C5: `StatusCode` returns an explicitly set (non-zero) code no
matter how many writes follow the `WriteHeader` call, and returns the
default 200 when no explicit status was ever set. -/
theorem claim_C5 (σ : Type) (W : RWOps σ) (r : responseInfoRecorder σ)
    (bs : List (List Nat)) (code : Nat) (s : σ) (cl : Int)
    (h : code ≠ 0) :
    (writeAll W (r.WriteHeader W code) bs).StatusCode = code ∧
    (writeAll W { statusCode := 0, ContentLength := cl, ResponseWriter := s } bs).StatusCode = 200 := by
  constructor
  · have hs : (writeAll W (r.WriteHeader W code) bs).statusCode = code := by
      rw [writeAll_statusCode_ne]
      · rfl
      · exact h
    rw [responseInfoRecorder.StatusCode, hs, if_neg h]
  · exact writeAll_statusCode_zero W bs _ rfl

/-- Witness for claim C5 at a concrete recorder: `WriteHeader 404`
followed by two writes still reports 404, and a fresh recorder reports
200. -/
theorem claim_C5_witness :
    (404 : Nat) ≠ 0 ∧
    ((writeAll uwOps ((responseInfoRecorder.WriteHeader uwOps
        { statusCode := 0, ContentLength := 0, ResponseWriter := {} } 404)) [[1], [2, 3]]).StatusCode = 404 ∧
      (writeAll uwOps { statusCode := 0, ContentLength := 0, ResponseWriter := ({} : UWriter) }
        [[1], [2, 3]]).StatusCode = 200) :=
  ⟨by decide, claim_C5 UWriter uwOps
    { statusCode := 0, ContentLength := 0, ResponseWriter := {} } [[1], [2, 3]] 404 {} 0 (by decide)⟩

/-- Claim C6: after the handler has returned (recorder state fixed at
`r`), any number of snapshot calls yields identical `ResponseInfo`
values and never mutates the recorder. -/
theorem claim_C6 (σ : Type) (W : RWOps σ) (r : responseInfoRecorder σ) (n : Nat) :
    (snapshotN W r n).1 = List.replicate n (responseInfo (r.partialResponse W)) ∧
    (snapshotN W r n).2 = r := by
  induction n with
  | zero => exact ⟨rfl, rfl⟩
  | succ m ih =>
    refine ⟨?_, ih.2⟩
    rw [List.replicate_succ]
    exact congrArg _ ih.1

/-! ## Lemmas about headers and the span codec -/

theorem getHeaderVal_setHeaderVal (h : Headers) (k v : String) :
    getHeaderVal (setHeaderVal h k v) k = some v := by
  unfold getHeaderVal setHeaderVal
  induction h with
  | nil => simp [List.find?]
  | cons p t ih =>
    by_cases hp : p.1 = k
    · simpa [hp] using ih
    · simpa [List.find?, hp] using ih

theorem decode_encode (s : SpanID) : decodeSpanID (encodeSpanID s) = some s := by
  obtain ⟨n⟩ := s
  have hall : ∀ m : Nat, (List.replicate m 'a').all (fun c => decide (c = 'a')) = true := by
    intro m
    induction m with
    | zero => rfl
    | succ j ih => simp [List.replicate, ih]
  unfold decodeSpanID encodeSpanID
  simp [String.all, hall]

/-! ## Claims about the Middleware -/

/-- Claim C1: when the inbound Span-ID header decodes to a valid span
`S`, the header map of the outbound response ends up holding a value
that decodes back to exactly `S`. -/
theorem claim_C1 (cf : MiddlewareConfig)
    (next : Request → responseInfoRecorder UWriter →
      Request × responseInfoRecorder UWriter)
    (clock : Nat → Nat) (seed : Nat) (r : Request) (rw : UWriter)
    (S : SpanID) (hdec : GetSpanIDHeader r.header = .ok (some S)) :
    outSpan (Middleware (some cf) next clock seed r rw) = some S := by
  have hspan : mwSpan r.header seed = S := by
    unfold mwSpan mwSpanOpt
    rw [hdec]
  show (getHeaderVal
      ((mwRun cf next clock seed r rw).finalRec.ResponseWriter.header)
      spanIDKey).bind decodeSpanID = some S
  have hhdr : (mwRun cf next clock seed r rw).finalRec.ResponseWriter.header
      = setHeaderVal
          ((next (applyCtx cf r (mwSpan r.header seed))
              { statusCode := 0, ContentLength := 0, ResponseWriter := rw }).2.ResponseWriter.header)
          spanIDKey (encodeSpanID (mwSpan r.header seed)) := rfl
  rw [hhdr, hspan, getHeaderVal_setHeaderVal, Option.some_bind, decode_encode]

/-- Witness for claim C1: a request carrying the header value "aa"
(span 2) with a body-writing handler; the outbound header map decodes
to span 2. -/
theorem claim_C1_witness :
    GetSpanIDHeader ([(spanIDKey, "aa")] : Headers) = .ok (some ⟨2⟩) ∧
    outSpan (Middleware (some {}) (fun r rr => (r, (rr.Write uwOps [42]).1)) id 7
      { method := "GET", uri := "/w", header := [(spanIDKey, "aa")] } {}) = some ⟨2⟩ :=
  ⟨by decide, claim_C1 {} (fun r rr => (r, (rr.Write uwOps [42]).1)) id 7
    { method := "GET", uri := "/w", header := [(spanIDKey, "aa")] } {} ⟨2⟩ (by decide)⟩

/-- Claim C2 is refuted by the code: `SetSpanIDHeader` runs only after
`next` has returned.  With a handler that writes a single body byte, the
headers committed to the client at the first body write (`headerFlush []`
on the wire, first) contain no Span-ID entry; the middleware adds the
span to the header map only afterwards, when it can no longer be
observed by the client. -/
theorem claim_C2 :
    (Middleware (some {}) (fun r rr => (r, (rr.Write uwOps [42]).1)) id 7
        { method := "GET", uri := "/", header := [] } {}).toOption.map
      (fun res => (res.finalRec.ResponseWriter.wire,
        getHeaderVal res.finalRec.ResponseWriter.header spanIDKey))
      = some ([WireItem.headerFlush [], WireItem.chunk [42]],
          some (encodeSpanID (NewRootSpanID 7))) ∧
    getHeaderVal ([] : Headers) spanIDKey = none := by
  decide

/-- Claim C3: a present but malformed Span-ID header logs exactly one
warning, falls back to the freshly generated root span, and the request
still runs to completion: the handler is invoked and one event is
emitted. -/
theorem claim_C3 (cf : MiddlewareConfig)
    (next : Request → responseInfoRecorder UWriter →
      Request × responseInfoRecorder UWriter)
    (clock : Nat → Nat) (seed : Nat) (r : Request) (rw : UWriter)
    (v : String) (hv : getHeaderVal r.header spanIDKey = some v)
    (hbad : decodeSpanID v = none) :
    ∃ res, Middleware (some cf) next clock seed r rw = .ok res ∧
      res.warnings = 1 ∧ res.fromClient = false ∧ res.handlerInvoked = true ∧
      res.emitted.map Prod.fst = [NewRootSpanID seed] := by
  have hdec : GetSpanIDHeader r.header = .error ("invalid Span-ID header: " ++ v) := by
    simp [GetSpanIDHeader, hv, hbad]
  refine ⟨mwRun cf next clock seed r rw, rfl, ?_, ?_, rfl, ?_⟩
  · show mwWarnings r.header = 1
    unfold mwWarnings
    rw [hdec]
  · show mwFromClient r.header = false
    unfold mwFromClient mwSpanOpt
    rw [hdec]
    rfl
  · show [mwSpan r.header seed] = [NewRootSpanID seed]
    unfold mwSpan mwSpanOpt
    rw [hdec]

/-- Witness for claim C3: header value "z" is present but malformed;
the run completes with one warning and a root span from seed 7. -/
theorem claim_C3_witness :
    getHeaderVal ([(spanIDKey, "z")] : Headers) spanIDKey = some "z" ∧
    decodeSpanID "z" = none ∧
    ∃ res, Middleware (some {}) (fun r rr => (r, (rr.Write uwOps [42]).1)) id 7
        { method := "GET", uri := "/w", header := [(spanIDKey, "z")] } {} = .ok res ∧
      res.warnings = 1 ∧ res.fromClient = false ∧ res.handlerInvoked = true ∧
      res.emitted.map Prod.fst = [NewRootSpanID 7] :=
  ⟨by decide, by decide,
    claim_C3 {} (fun r rr => (r, (rr.Write uwOps [42]).1)) id 7
      { method := "GET", uri := "/w", header := [(spanIDKey, "z")] } {} "z"
      (by decide) (by decide)⟩

/-- Claim C7: the event's Request info is the post-handler snapshot
exactly when the span was created by this layer, and the pre-handler
snapshot exactly when the span came from the client. -/
theorem claim_C7 (cf : MiddlewareConfig)
    (next : Request → responseInfoRecorder UWriter →
      Request × responseInfoRecorder UWriter)
    (clock : Nat → Nat) (seed : Nat) (r : Request) (rw : UWriter) :
    ∃ res, Middleware (some cf) next clock seed r rw = .ok res ∧
      (res.fromClient = true ↔ ∃ S, GetSpanIDHeader r.header = .ok (some S)) ∧
      res.emitted.map (fun em => em.2.2.Request)
        = [requestInfo (if res.fromClient = true then res.preHandlerReq else res.finalReq)] := by
  refine ⟨mwRun cf next clock seed r rw, rfl, ?_, ?_⟩
  · show mwFromClient r.header = true ↔ _
    unfold mwFromClient mwSpanOpt
    cases hd : GetSpanIDHeader r.header with
    | error e => simp
    | ok o => cases o <;> simp
  · by_cases hc : mwFromClient r.header = true
    · simp [mwRun, hc, NewServerEvent]
    · rw [Bool.not_eq_true] at hc
      simp [mwRun, hc, NewServerEvent]

/-- Claim C8: exactly one event is handed to the collector, and the
recorder is named by the event's Route when non-empty, else by the
Request's URI. -/
theorem claim_C8 (cf : MiddlewareConfig)
    (next : Request → responseInfoRecorder UWriter →
      Request × responseInfoRecorder UWriter)
    (clock : Nat → Nat) (seed : Nat) (r : Request) (rw : UWriter) :
    ∃ res, Middleware (some cf) next clock seed r rw = .ok res ∧
      res.emitted.length = 1 ∧
      res.emitted.map (fun em => em.2.1)
        = res.emitted.map
            (fun em => if em.2.2.Route ≠ "" then em.2.2.Route else em.2.2.Request.URI) :=
  ⟨mwRun cf next clock seed r rw, rfl, rfl, rfl⟩

/-- Claim C9: `ServerRecv` is read from the clock before the handler
runs and `ServerSend` from a strictly later clock reading after it
returns, so with a monotone clock every emitted event has
`ServerRecv ≤ ServerSend`. -/
theorem claim_C9 (clock : Nat → Nat) (hmono : Monotone clock)
    (cf : MiddlewareConfig)
    (next : Request → responseInfoRecorder UWriter →
      Request × responseInfoRecorder UWriter)
    (seed : Nat) (r : Request) (rw : UWriter) :
    ∃ res, Middleware (some cf) next clock seed r rw = .ok res ∧
      ∀ em ∈ res.emitted, em.2.2.ServerRecv ≤ em.2.2.ServerSend := by
  refine ⟨mwRun cf next clock seed r rw, rfl, ?_⟩
  intro em hem
  have h01 : clock 0 ≤ clock 1 := hmono (Nat.zero_le 1)
  by_cases hc : mwFromClient r.header = true
  · simp [mwRun, hc, List.mem_singleton] at hem
    rw [hem]
    exact h01
  · rw [Bool.not_eq_true] at hc
    simp [mwRun, hc, List.mem_singleton] at hem
    rw [hem]
    exact h01

/-- Witness for claim C9 with the identity clock: the emitted event of a
concrete run has `ServerRecv ≤ ServerSend`. -/
theorem claim_C9_witness :
    Monotone (fun n : Nat => n) ∧
    ∃ res, Middleware (some {}) (fun r rr => (r, rr)) (fun n => n) 7
        { method := "GET", uri := "/w", header := [] } {} = .ok res ∧
      ∀ em ∈ res.emitted, em.2.2.ServerRecv ≤ em.2.2.ServerSend :=
  ⟨fun _ _ h => h,
    claim_C9 (fun n => n) (fun _ _ h => h) {} (fun r rr => (r, rr)) 7
      { method := "GET", uri := "/w", header := [] } {}⟩

/-- Claim C10: a nil `conf` makes the returned handler panic on every
request at the config dereference, before the downstream handler has
run and before anything was written to the underlying writer. -/
theorem claim_C10
    (next : Request → responseInfoRecorder UWriter →
      Request × responseInfoRecorder UWriter)
    (clock : Nat → Nat) (seed : Nat) (r : Request) (rw : UWriter) :
    Middleware none next clock seed r rw
      = .error { handlerInvoked := false, sink := rw } := rfl

end Httptrace
